import Mathlib

/-!
# Verification of the cardata mock simulation engine

A shallow embedding of `src/simulation.ts` (class `Simulation`) together with
proofs about the generated data and the accumulator/flush state machine.

Modelling conventions:
* JavaScript numbers are modelled as `ℚ` (the code only performs arithmetic
  that is exact on the values of interest; `Math.floor` is `Int.floor`,
  `Math.round x` is `⌊x + 1/2⌋`, which agrees with JS round-half-up).
* The seeded generator `#seededRand(seed)` is a pure function of its seed that
  returns values in `[0, 1)`.  It is modelled as a stream `ℕ → ℚ` consumed in
  call order (structure `Rng`); theorems assume only the range property, which
  the concrete generator guarantees, so they hold for the generated streams.
  Identical seeds yield identical streams.
* `#randUniform` (the instance-global generator seeded from `seed`) is
  likewise a stream consumed in call order.
* Transcendental library functions (`Math.sqrt`, `Math.atan2`/heading,
  `Math.sin`, `h3` conversions, `Date` formatting) are deterministic library
  routines; they enter the model as explicit function parameters collected in
  `MathParams` and are held fixed across runs.
* `crypto.randomUUID()` (unseeded) and `Date.now()` are the nondeterministic
  ambient inputs; they are modelled as explicit per-run streams.
* JS `Map` objects are association lists with `Map.set` semantics (`mset`:
  update in place if the key exists, else append, preserving insertion order).
-/

namespace Cardata

/-- JS `Math.round`: round half toward positive infinity. -/
def jsRound (q : ℚ) : ℤ := ⌊q + 1/2⌋

/-- JS `Math.round(x * 10) / 10` (round to one decimal), as used for temperatures. -/
def round1 (q : ℚ) : ℚ := (jsRound (q * 10) : ℚ) / 10

/-- Model of `parseFloat(x.toFixed(d))`: round to `d` decimal places. -/
def roundTo (d : ℕ) (q : ℚ) : ℚ := (jsRound (q * 10 ^ d) : ℚ) / 10 ^ d

/-- Left-pad the decimal representation of `n` with zeros to width `w`
(JS `String(n).padStart(w, "0")`). -/
def padStart0 (w : ℕ) (n : ℕ) : String :=
  let s := toString n
  if s.length < w then String.mk (List.replicate (w - s.length) '0') ++ s else s

/-- Render `q` (assumed produced by rounding to 5 decimals) the way JS
`x.toFixed(5)` renders it: sign, integer part, dot, exactly five decimals. -/
def toFixed5 (q : ℚ) : String :=
  let n : ℤ := jsRound (q * 100000)
  let a : ℕ := n.natAbs
  let body := toString (a / 100000) ++ "." ++ padStart0 5 (a % 100000)
  if n < 0 then "-" ++ body else body

/-! ## Association lists with JS `Map` semantics -/

/-- JS `Map.prototype.set`: replace in place if present, else append. -/
def mset {α : Type} (m : List (String × α)) (k : String) (v : α) :
    List (String × α) :=
  if m.any (fun p => p.1 = k) then
    m.map (fun p => if p.1 = k then (k, v) else p)
  else m ++ [(k, v)]

/-- JS `Map.prototype.get` (first binding wins; `mset` keeps keys unique). -/
def mget {α : Type} (m : List (String × α)) (k : String) : Option α :=
  (m.find? (fun p => p.1 = k)).map (fun p => p.2)

/-- Build a map by `set`-ing a list of entries in order (later wins). -/
def buildStore {α : Type} (l : List (String × α)) : List (String × α) :=
  l.foldl (fun m p => mset m p.1 p.2) []

/-! ## Enumerations from `types.ts` -/

inductive RainIntensity
  | NONE | LOW | MEDIUM | HIGH | UNRECOGNIZED
deriving DecidableEq, Repr

inductive RoadCondition
  | DRY | WET | SLIPPERY | SLIPPERY_ICE | SLIPPERY_WET | UNRECOGNIZED
deriving DecidableEq, Repr

/-- Model of `#rainIntensityToScore`. -/
def rainIntensityToScore : RainIntensity → ℚ
  | .NONE => 0
  | .LOW => 1
  | .MEDIUM => 2
  | .HIGH => 4
  | .UNRECOGNIZED => 0

/-- Model of `#roadConditionToScore`. -/
def roadConditionToScore : RoadCondition → ℚ
  | .DRY => 0
  | .WET => 1
  | .SLIPPERY => 2
  | .SLIPPERY_ICE => 3
  | .SLIPPERY_WET => 2
  | .UNRECOGNIZED => 0

/-- Rain classification of the mean rain score in `#applyRawAggToSnapshotBatch`
(lines 486–489): `>= 3.0 → HIGH`, `>= 1.2 → MEDIUM`, `>= 0.6 → LOW`, else `NONE`. -/
def classifyRain (s : ℚ) : RainIntensity :=
  if s ≥ 3 then .HIGH
  else if s ≥ 12/10 then .MEDIUM
  else if s ≥ 6/10 then .LOW
  else .NONE

/-- Road classification of the mean road score in `#applyRawAggToSnapshotBatch`
(lines 491–495): `>= 2.5 → SLIPPERY_ICE`, `>= 1.8 → SLIPPERY`, `>= 0.8 → WET`, else `DRY`. -/
def classifyRoad (s : ℚ) : RoadCondition :=
  if s ≥ 5/2 then .SLIPPERY_ICE
  else if s ≥ 9/5 then .SLIPPERY
  else if s ≥ 4/5 then .WET
  else .DRY

/-! ## Seeded random streams -/

/-- A pure random stream with a cursor: models a `() => number` closure such as
`#seededRand(seed)` (whose return values always lie in `[0,1)`). -/
structure Rng where
  stream : ℕ → ℚ
  pos : ℕ

/-- One call `r()`. -/
def Rng.next (g : Rng) : ℚ × Rng := (g.stream g.pos, ⟨g.stream, g.pos + 1⟩)

/-- The range guarantee of `#seededRand` / `#randUniform`: every value of the
stream lies in `[0, 1)`. -/
def StreamOK (f : ℕ → ℚ) : Prop := ∀ n, 0 ≤ f n ∧ f n < 1

/-- Range guarantee for an `Rng`. -/
def RngOK (g : Rng) : Prop := StreamOK g.stream

/-! ## `#generateHotspotStatistics` (simulation.ts lines 606–668) -/

/-- The `"HH:MM"` key built in `#generateHotspotStatistics`. -/
def timeString (hour minute : ℕ) : String :=
  padStart0 2 hour ++ ":" ++ padStart0 2 minute

/-- The 48 half-hour keys initialised to 0 (lines 624–631): slot `i` is hour
`i / 2`, minute `(i % 2) * 30`. -/
def timeKeys : List String :=
  (List.range 48).map (fun i => timeString (i / 2) ((i % 2) * 30))

/-- The weekday keys of `by_day` (lines 612–620). -/
def dayKeys : List String := ["Mo", "Tu", "We", "Th", "Fr", "Sa", "Su"]

/-- The three temporal distributions of a hotspot, as total functions
(absent record keys read as 0). -/
structure HotspotDist where
  by_week : ℕ → ℕ
  by_day : String → ℕ
  by_time : String → ℕ

/-- Initial distributions: `by_week = {}`, `by_day` and `by_time` all zeros. -/
def distZero : HotspotDist := ⟨fun _ => 0, fun _ => 0, fun _ => 0⟩

/-- One iteration of the `while (remaining > 0)` loop (lines 634–665).
The successive `r()` calls are the successive stream values starting at the
cursor: draw 0 is the week pick, draw 1 is `dayRoll`, draw 2 the weekday pick,
draw 3 is `timeRoll`; the rush-hour branch then consumes draws 4 and 5, the
night and uniform branches consume draw 4 only, and the minute pick is the
last draw (5 or 6), so an iteration consumes 7 draws in the rush-hour branch
and 6 otherwise. -/
def statsStep (ti : ℕ) (g : Rng) (d : HotspotDist) : HotspotDist × Rng :=
  let s := g.stream
  let p := g.pos
  let week := 1 + (⌊s p * 52⌋).toNat
  let by_week := fun n => if n = week then d.by_week n + 1 else d.by_week n
  let dayIdx := if s (p + 1) < 7/10 then (⌊s (p + 2) * 5⌋).toNat
                else 5 + (⌊s (p + 2) * 2⌋).toNat
  let day := dayKeys.getD dayIdx "Mo"
  let by_day := fun k => if k = day then d.by_day k + 1 else d.by_day k
  let rush := 3 ≤ ti ∧ s (p + 3) < 6/10
  let night := 4 ≤ ti ∧ s (p + 3) < 8/10
  let hour :=
    if rush then
      (if s (p + 4) < 1/2 then 7 + (⌊s (p + 5) * 2⌋).toNat
       else 16 + (⌊s (p + 5) * 3⌋).toNat)
    else if night then
      (if 22 + (⌊s (p + 4) * 6⌋).toNat ≥ 24 then 22 + (⌊s (p + 4) * 6⌋).toNat - 24
       else 22 + (⌊s (p + 4) * 6⌋).toNat)
    else (⌊s (p + 4) * 24⌋).toNat
  let mpos := if rush then p + 6 else p + 5
  let minute := if s mpos < 1/2 then 0 else 30
  let ts := timeString hour minute
  let by_time := fun k => if k = ts then d.by_time k + 1 else d.by_time k
  (⟨by_week, by_day, by_time⟩, ⟨s, if rush then p + 7 else p + 6⟩)

/-- The whole `while` loop, running `remaining` times. -/
def statsLoop (ti : ℕ) : ℕ → Rng → HotspotDist → HotspotDist
  | 0, _, d => d
  | n + 1, g, d => statsLoop ti n (statsStep ti g d).2 (statsStep ti g d).1

/-- Model of `#generateHotspotStatistics(r, total_count, time_impact)`. -/
def generateHotspotStatistics (g : Rng) (total_count ti : ℕ) : HotspotDist :=
  statsLoop ti total_count g distZero

/-- Sum of the `by_week` record (all keys generated lie in `1..52 ⊆ range 53`). -/
def sumWeek (d : HotspotDist) : ℕ := ((List.range 53).map d.by_week).sum

/-- Sum of the `by_day` record over its seven keys. -/
def sumDay (d : HotspotDist) : ℕ := (dayKeys.map d.by_day).sum

/-- Sum of the `by_time` record over its 48 half-hour keys. -/
def sumTime (d : HotspotDist) : ℕ := (timeKeys.map d.by_time).sum

/-! ## Static geography from `data.ts` -/

/-- The highway polylines of `data.ts` (`[lat, lng]` vertices). -/
def highways : List (List (ℚ × ℚ)) :=
  [[(50.0755, 14.4378), (49.7813, 14.6850), (49.5420, 15.3590), (49.3964, 15.5912),
    (49.3540, 16.0100), (49.2775, 16.5660), (49.1951, 16.6068), (49.4100, 17.0000),
    (49.8209, 18.2625)],
   [(49.1951, 16.6068), (48.9393, 16.7406), (48.7595, 16.8820)],
   [(50.0755, 14.4378), (49.7813, 14.6850), (49.4144, 14.6588), (49.1850, 14.7000),
    (48.9747, 14.4747)],
   [(50.0755, 14.4378), (49.9643, 14.0741), (49.7390, 13.5910), (49.7465, 13.3776),
    (49.7090, 13.0000), (49.6631, 12.7777)],
   [(50.0755, 14.4378), (50.1510, 13.7900), (50.2321, 12.8714), (50.0796, 12.3739)],
   [(50.0755, 14.4378), (50.2300, 14.0850), (50.3500, 13.7970), (50.4069, 13.4188),
    (50.4920, 13.0258)],
   [(50.0755, 14.4378), (50.5175, 14.0450), (50.66, 14.0416), (50.7750, 14.1000),
    (50.9013, 14.2540)],
   [(50.0755, 14.4378), (50.4106, 14.9070), (50.5865, 15.1496), (50.7670, 15.0670)],
   [(50.0755, 14.4378), (50.1430, 15.1170), (50.2092, 15.8328), (50.0343, 15.7812),
    (49.7890, 16.9170), (49.5938, 17.2509), (49.5178, 17.5833)],
   [(49.1951, 16.6068), (48.9870, 16.5230), (48.8052, 16.6376)],
   [(49.5938, 17.2509), (49.4550, 17.4500), (49.2236, 17.5320), (49.2264, 17.6707),
    (49.0681, 17.4634)]]

/-- A weighted city of `data.ts`. -/
structure City where
  name : String
  lat : ℚ
  lng : ℚ
  weight : ℚ
  sigma : ℚ

/-- The city list of `data.ts`. -/
def cities : List City :=
  [⟨"Prague", 50.0755, 14.4378, 5, 0.035⟩,
   ⟨"Brno", 49.1951, 16.6068, 3, 0.03⟩,
   ⟨"Ostrava", 49.8209, 18.2625, 2, 0.03⟩,
   ⟨"Plzen", 49.7465, 13.3776, 1.5, 0.025⟩,
   ⟨"Liberec", 50.7671, 15.0562, 1, 0.02⟩,
   ⟨"Olomouc", 49.5938, 17.2509, 1, 0.02⟩,
   ⟨"CeskeBudejovice", 48.9747, 14.4749, 0.8, 0.02⟩,
   ⟨"HradecKralove", 50.2092, 15.8328, 0.9, 0.02⟩,
   ⟨"Pardubice", 50.0343, 15.7812, 0.7, 0.02⟩,
   ⟨"Usti", 50.66, 14.0416, 0.8, 0.02⟩,
   ⟨"KarlovyVary", 50.2311, 12.8716, 0.5, 0.015⟩,
   ⟨"Zlin", 49.2264, 17.6706, 0.6, 0.015⟩]

/-- The risk type codes of `generateInitialHotspots` (line 263). -/
def RISK_TYPES : List String :=
  ["BDV", "VA", "GW", "HL", "SR", "FOG", "HR", "EB", "CW", "PH", "BUM"]

/-! ## Library-function parameters

`Math.sqrt`, `Math.atan2`-based headings, Box–Muller, `Math.sin`, the `h3`
conversions and `Date` formatting are deterministic library routines over
floats; they are abstracted as explicit function parameters, fixed across
runs. -/

structure MathParams where
  /-- `Math.sqrt`. -/
  sqrtQ : ℚ → ℚ
  /-- `(Math.atan2(dy, dx) * 180 / Math.PI + 360) % 360` as a function of `(dy, dx)`. -/
  headingQ : ℚ → ℚ → ℚ
  /-- The Box–Muller core `Math.sqrt(-2 ln u1) * Math.cos(2 π u2)` of `normal`. -/
  gaussQ : ℚ → ℚ → ℚ
  /-- `h3.latLngToCell(lat, lng, res)`. -/
  latLngToCell : ℚ → ℚ → ℕ → String
  /-- `h3.cellToLatLng(h3Index)` as `(lat, lng)`. -/
  cellToLatLng : String → ℚ × ℚ
  /-- `new Date(ms).toISOString()`. -/
  isoString : ℚ → String
  /-- `#dayOfYear(new Date(ms))`. -/
  dayOfYearQ : ℚ → ℚ
  /-- `new Date(ms).getUTCHours()`. -/
  utcHours : ℚ → ℕ
  /-- `x ↦ Math.sin(2 * Math.PI * x)`. -/
  sin2pi : ℚ → ℚ

/-- Advance the cursor by `k` draws. -/
def Rng.skip (g : Rng) (k : ℕ) : Rng := ⟨g.stream, g.pos + k⟩

/-- A point sampled on a polyline: position and segment heading. -/
structure SamplePoint where
  lat : ℚ
  lng : ℚ
  heading : ℚ

/-- Length of one polyline segment (`Math.sqrt(dx*dx + dy*dy)`). -/
def segLen (mp : MathParams) (ab : (ℚ × ℚ) × (ℚ × ℚ)) : ℚ :=
  mp.sqrtQ ((ab.2.1 - ab.1.1) * (ab.2.1 - ab.1.1) + (ab.2.2 - ab.1.2) * (ab.2.2 - ab.1.2))

/-- The cumulative walk of `sampleAlongPolyline` (lines 119–132 and 242–254):
find the segment containing distance `t`, interpolate, and compute heading. -/
def polylineWalk (mp : MathParams) : List ((ℚ × ℚ) × (ℚ × ℚ)) → ℚ → Option SamplePoint
  | [], _ => none
  | ab :: rest, t =>
      let L := segLen mp ab
      if t ≤ L then
        let a := ab.1
        let b := ab.2
        let frac := t / L
        some ⟨a.1 + (b.1 - a.1) * frac, a.2 + (b.2 - a.2) * frac,
              mp.headingQ (b.2 - a.2) (b.1 - a.1)⟩
      else polylineWalk mp rest (t - L)

/-- The fallback of `sampleAlongPolyline` (lines 133–139): the last vertex, with
the heading of the final segment.  (The `⟨0,0,0⟩` default is unreachable: every
polyline in `data.ts` has at least two vertices.) -/
def fallbackPoint (mp : MathParams) (poly : List (ℚ × ℚ)) : SamplePoint :=
  match poly.reverse with
  | last :: prev :: _ => ⟨last.1, last.2, mp.headingQ (last.2 - prev.2) (last.1 - prev.1)⟩
  | _ => ⟨0, 0, 0⟩

/-- Model of `sampleAlongPolyline(poly, r)`: consumes exactly one draw. -/
def sampleAlongPolyline (mp : MathParams) (poly : List (ℚ × ℚ)) (g : Rng) :
    SamplePoint × Rng :=
  let segs := poly.zip poly.tail
  let total := (segs.map (segLen mp)).sum
  let t := g.stream g.pos * total
  (match polylineWalk mp segs t with
   | some pt => pt
   | none => fallbackPoint mp poly,
   g.skip 1)

/-! ## `RiskHotspot` (types.ts) -/

structure HsLocation where
  latitude : ℚ
  longitude : ℚ
  std_dev : ℚ

structure HsRisk where
  type : String
  importance : ℕ
  confidence : ℕ
  residual_confidence : ℕ

structure HsMetadata where
  id : String
  risk : HsRisk
  total_count : ℕ
  weather_impact : ℕ
  time_of_day_impact : ℕ

structure HsTimeframe where
  first : String
  last : String

structure HsHeading where
  avg : ℤ
  std_dev : ℚ

structure HsVehicle where
  heading : HsHeading

structure HsAvgStd where
  avg : ℚ
  std_dev : ℚ

structure HsCondition where
  is_present : Bool
  count : ℕ

structure HsConditions where
  dry_road : HsCondition
  wet_road : HsCondition
  rain : HsCondition
  slippery_road : HsCondition
  fog : HsCondition
  crosswind : HsCondition

structure HsEnvironment where
  air_temperature : HsAvgStd
  sun_position : HsAvgStd
  conditions : HsConditions

structure RiskHotspot where
  location : HsLocation
  metadata : HsMetadata
  timeframe : HsTimeframe
  vehicle : HsVehicle
  environment : HsEnvironment
  statistics : HotspotDist

/-! ## `generateInitialHotspots` (simulation.ts lines 225–360) -/

/-- One iteration of the hotspot generation loop (lines 265–359).  `g` is the
per-hotspot stream `#seededRand(i ^ seed ^ 0xABCDEF)` (a pure function of
`seed` and `i`), `theUuid` the value of the unseeded `crypto.randomUUID()`
call, and `now` the value of `Date.now()` during the iteration.  Draws are
numbered in source call order: 0 highway pick, 1 polyline sample, 2–3 jitter,
4 `total_count`, 5–6 timestamps, 7–8 impacts, 9–14 condition counts, 15
location std-dev, 16–19 risk fields, 20–21 heading, 22–25 air/sun, then the
statistics loop continues from draw 26.  Returns the store key (the
5-decimal `"lat_lng"` string, line 355) and the record. -/
def mkHotspot (mp : MathParams) (g : Rng) (theUuid : String) (now : ℚ) :
    String × RiskHotspot :=
  let s := g.stream
  let p := g.pos
  let hIdx := (⌊s p * (highways.length : ℚ)⌋).toNat
  let poly := highways.getD hIdx []
  let base := (sampleAlongPolyline mp poly (g.skip 1)).1
  let lat := base.lat + (s (p + 2) - 1/2) * (1/1000)
  let lng := base.lng + (s (p + 3) - 1/2) * (1/1000)
  let total_count := 5 + (⌊s (p + 4) * s (p + 4) * s (p + 4) * 500⌋).toNat
  let lastTs := now - ((⌊s (p + 5) * (30 * 24 * 3600 * 1000)⌋ : ℤ) : ℚ)
  let firstTs := lastTs - ((⌊(30 + s (p + 6) * 300) * (24 * 3600 * 1000)⌋ : ℤ) : ℚ)
  let weather_impact := 1 + (⌊s (p + 7) * 5⌋).toNat
  let time_of_day_impact := 1 + (⌊s (p + 8) * 5⌋).toNat
  let dry_road_count :=
    (⌊(total_count : ℚ) * (if weather_impact ≤ 2 then 8/10 else 3/10) * s (p + 9)⌋).toNat
  let wet_road_count :=
    (⌊(total_count : ℚ) * (if 3 ≤ weather_impact then 7/10 else 2/10) * s (p + 10)⌋).toNat
  let rain_count :=
    (⌊(wet_road_count : ℚ) * (if 3 ≤ weather_impact then 8/10 else 3/10) * s (p + 11)⌋).toNat
  let slippery_road_count :=
    (⌊(total_count : ℚ) * (if 4 ≤ weather_impact then 5/10 else 1/10) * s (p + 12)⌋).toNat
  let fog_count :=
    (⌊(total_count : ℚ) * (if 4 ≤ weather_impact then 3/10 else 5/100) * s (p + 13)⌋).toNat
  let crosswind_count := (⌊(total_count : ℚ) * (1/10) * s (p + 14)⌋).toNat
  let latitude := roundTo 6 lat
  let longitude := roundTo 6 lng
  let h : RiskHotspot :=
    { location := { latitude := latitude, longitude := longitude,
                    std_dev := 5 + s (p + 15) * 25 }
      metadata :=
        { id := theUuid
          risk :=
            { type := RISK_TYPES.getD (⌊s (p + 16) * (RISK_TYPES.length : ℚ)⌋).toNat "BDV"
              importance := 1 + (⌊s (p + 17) * 5⌋).toNat
              confidence := 50 + (⌊s (p + 18) * 50⌋).toNat
              residual_confidence := 10 + (⌊s (p + 19) * 80⌋).toNat }
          total_count := total_count
          weather_impact := weather_impact
          time_of_day_impact := time_of_day_impact }
      timeframe := { first := mp.isoString firstTs, last := mp.isoString lastTs }
      vehicle :=
        { heading := { avg := jsRound (base.heading + (s (p + 20) - 1/2) * 10)
                       std_dev := 2 + s (p + 21) * 15 } }
      environment :=
        { air_temperature := { avg := -5 + s (p + 22) * 25, std_dev := 1 + s (p + 23) * 5 }
          sun_position := { avg := s (p + 24) * 360, std_dev := 10 + s (p + 25) * 40 }
          conditions :=
            { dry_road := { is_present := decide (0 < dry_road_count), count := dry_road_count }
              wet_road := { is_present := decide (0 < wet_road_count), count := wet_road_count }
              rain := { is_present := decide (0 < rain_count), count := rain_count }
              slippery_road := { is_present := decide (0 < slippery_road_count),
                                 count := slippery_road_count }
              fog := { is_present := decide (0 < fog_count), count := fog_count }
              crosswind := { is_present := decide (0 < crosswind_count),
                             count := crosswind_count } } }
      statistics := generateHotspotStatistics (g.skip 26) total_count time_of_day_impact }
  (toFixed5 latitude ++ "_" ++ toFixed5 longitude, h)

/-- The generated `(id, hotspot)` sequence, in loop order.  `rOf i`
abstracts the stream of `#seededRand(i ^ seed ^ 0xABCDEF)` — a pure function
of the seed — while `uuid` and `clock` are the nondeterministic ambient
inputs (`crypto.randomUUID()` and `Date.now()` per iteration). -/
def genHotspotPairs (mp : MathParams) (rOf : ℕ → ℕ → ℚ) (uuid : ℕ → String)
    (clock : ℕ → ℚ) (count : ℕ) : List (String × RiskHotspot) :=
  (List.range count).map (fun i => mkHotspot mp ⟨rOf i, 0⟩ (uuid i) (clock i))

/-- Model of `generateInitialHotspots(count)`: clear the store, then `Map.set` each
generated pair in order (line 358) — a later id silently overwrites an
earlier one. -/
def generateInitialHotspots (mp : MathParams) (rOf : ℕ → ℕ → ℚ) (uuid : ℕ → String)
    (clock : ℕ → ℚ) (count : ℕ) : List (String × RiskHotspot) :=
  buildStore (genHotspotPairs mp rOf uuid clock count)

/-! ## Store lemmas: JS `Map.set` semantics -/

/-- The last binding for `k` in an entry sequence (what a JS `Map` holds after
`set`-ing the sequence in order). -/
def lastBinding {α : Type} (l : List (String × α)) (k : String) : Option α :=
  l.foldl (fun acc p => if p.1 = k then some p.2 else acc) none

/-! ## Cell data model (types.ts) -/

structure CellLocationRef where
  h3_index : String

structure CellTimeframe where
  last : String

structure CellMetadata where
  confidence : ℤ
  total_count : ℤ

structure CellConditions where
  rain_intensity : RainIntensity
  road_condition : RoadCondition
  fog : Bool
  cross_wind : Bool

structure CellEnvironment where
  temperature : ℚ
  is_night : Bool
  conditions : CellConditions

structure Cell where
  location : CellLocationRef
  timeframe : CellTimeframe
  metadata : CellMetadata
  environment : CellEnvironment

/-- One `#rawAgg` accumulator bucket. -/
structure RawBucket where
  sumTemp : ℚ
  count : ℕ
  lastTs : ℚ
  sumConfidence : ℚ
  sumCounts : ℚ
  fogVotes : ℕ
  crossWindVotes : ℕ
  rainScore : ℚ
  roadScore : ℚ

structure TempExtreme where
  value : ℚ
  timestamp : String

structure StatTemperature where
  lowest : Option TempExtreme
  highest : Option TempExtreme

structure RainDayCounts where
  low : ℤ
  medium : ℤ
  high : ℤ

structure DayCounts where
  rain : RainDayCounts
  slippery_road : ℤ
  fog : ℤ
  cross_wind : ℤ

structure CellStatistics where
  temperature : StatTemperature
  day_counts : DayCounts

/-- A sampled cell location (`#cellLocations` entries). -/
structure CellLoc where
  lat : ℚ
  lng : ℚ
  h3 : String

/-- The mutable private state of a `Simulation` instance.  `uni` is the
instance-global `#randUniform` source (a pure function of the seed),
modelled as the sequence of its return values with a cursor. -/
structure SimState where
  rawAgg : List (String × RawBucket)
  snapshot : List (String × Cell)
  hotspots : List (String × RiskHotspot)
  stats : List (String × CellStatistics)
  cellLocations : List CellLoc
  uni : Rng

/-- An ingestion payload: `temperature` required, the rest optional
(`none` = the field is absent from the event). -/
structure RawEvent where
  temperature : ℚ
  confidence : Option ℚ
  count : Option ℚ
  fog : Option Bool
  cross_wind : Option Bool
  rain_intensity : Option RainIntensity
  road_condition : Option RoadCondition
  timestamp : Option ℚ

/-- The all-absent event used to model calls such as
`pushRawEvent(cellX, { temperature })`. -/
def bareEvent (temperature : ℚ) : RawEvent :=
  ⟨temperature, none, none, none, none, none, none, none⟩

/-- Model of `pushRawEvent(h3Index, event)` (lines 422–462): merge into the cell's
accumulator bucket with the documented defaults (confidence 80, count 1,
`fog`/`cross_wind` falsy, rain `NONE`, road `DRY`, timestamp `Date.now()`,
passed here as `now`).  Total: ingestion is never rejected. -/
def pushRawEvent (st : SimState) (h3Index : String) (e : RawEvent) (now : ℚ) :
    SimState :=
  let ts := e.timestamp.getD now
  let bucket := (mget st.rawAgg h3Index).getD ⟨0, 0, 0, 0, 0, 0, 0, 0, 0⟩
  let bucket2 : RawBucket :=
    { sumTemp := bucket.sumTemp + e.temperature
      count := bucket.count + 1
      lastTs := max bucket.lastTs ts
      sumConfidence := bucket.sumConfidence + e.confidence.getD 80
      sumCounts := bucket.sumCounts + e.count.getD 1
      fogVotes := bucket.fogVotes + (if e.fog.getD false then 1 else 0)
      crossWindVotes := bucket.crossWindVotes + (if e.cross_wind.getD false then 1 else 0)
      rainScore := bucket.rainScore + rainIntensityToScore (e.rain_intensity.getD .NONE)
      roadScore := bucket.roadScore + roadConditionToScore (e.road_condition.getD .DRY) }
  { st with rawAgg := mset st.rawAgg h3Index bucket2 }

/-- The summary built from one accumulator bucket during a flush
(lines 477–519). -/
def summarize (mp : MathParams) (st : SimState) (now : ℚ)
    (q : String × RawBucket) : String × Cell :=
  let h3index := q.1
  let agg := q.2
  let avgTemp := agg.sumTemp / max 1 (agg.count : ℚ)
  let confidence := max 0 (min 100 (jsRound (agg.sumConfidence / max 1 (agg.count : ℚ))))
  let total_count := max 1 (jsRound agg.sumCounts)
  let rainIntensity := classifyRain (agg.rainScore / max 1 (agg.count : ℚ))
  let roadCondition := classifyRoad (agg.roadScore / max 1 (agg.count : ℚ))
  let fog := decide (1/2 ≤ (agg.fogVotes : ℚ) / max 1 (agg.count : ℚ))
  let crossWind := decide (2/10 ≤ (agg.crossWindVotes : ℚ) / max 1 (agg.count : ℚ))
  (h3index,
   { location := ⟨h3index⟩
     timeframe := ⟨mp.isoString (if agg.lastTs = 0 then now else agg.lastTs)⟩
     metadata := ⟨confidence, total_count⟩
     environment :=
       { temperature := round1 avgTemp
         is_night := ((mget st.snapshot h3index).map
             (fun c => c.environment.is_night)).getD
           (decide ((mp.utcHours now + 1) % 24 < 6))
         conditions := ⟨rainIntensity, roadCondition, fog, crossWind⟩ } })

/-- Model of `#applyRawAggToSnapshotBatch` (lines 473–527): build the whole new
snapshot from the accumulator, substitute it atomically, clear the
accumulator. -/
def applyRawAggToSnapshotBatch (mp : MathParams) (st : SimState) (now : ℚ) :
    SimState :=
  let newSnapshot := buildStore (st.rawAgg.map (summarize mp st now))
  { st with snapshot := newSnapshot, rawAgg := [] }

/-! ## Environment model (`#generateEnvironmentForLocation`, lines 557–604) -/

def boundsMinLat : ℚ := 48.55

def boundsMaxLat : ℚ := 51.06

/-- Model of `normal(r, mean, std)` (lines 85–91): Box–Muller on two uniform draws,
with the `|| 1e-9` guards. -/
def normalBM (mp : MathParams) (u1 u2 mean std : ℚ) : ℚ :=
  let v1 := if u1 = 0 then 1/1000000000 else u1
  let v2 := if u2 = 0 then 1/1000000000 else u2
  mean + mp.gaussQ v1 v2 * std

/-- The cumulative-weight walk of `pickCity` (lines 94–102). -/
def pickCityWalk : List City → ℚ → Option City
  | [], _ => none
  | c :: rest, v => if v ≤ c.weight then some c else pickCityWalk rest (v - c.weight)

/-- Model of `pickCity(r)`: one uniform draw against the total weight; falls back to
`cities[0]`. -/
def pickCity (u : ℚ) : City :=
  (pickCityWalk cities (u * (cities.map City.weight).sum)).getD
    (cities.getD 0 ⟨"", 0, 0, 0, 0⟩)

/-- Model of `#generateEnvironmentForLocation`.  Successive `#randUniform` calls are
the successive values of `g`: draw 0 the temperature noise, draw 1 the rain
roll; the fog expression consumes one draw when the night conjunction
short-circuits or decides on its first draw, two otherwise; the crosswind
draw is last. -/
def generateEnvironmentForLocation (mp : MathParams) (g : Rng) (lat now : ℚ) :
    CellEnvironment × Rng :=
  let s := g.stream
  let p := g.pos
  let doy := mp.dayOfYearQ now
  let latFactor := (lat - boundsMinLat) / (boundsMaxLat - boundsMinLat)
  let seasonal := mp.sin2pi (doy / 365) * 12
  let baseline := 6 - latFactor * 3
  let noise := (s p - 1/2) * 4
  let temperature := round1 (baseline + seasonal + noise)
  let localHour := (mp.utcHours now + 1) % 24
  let isNight := localHour < 6 ∨ 21 ≤ localHour
  let rainChanceBase := 15/100 + (1/10) * max 0 (seasonal / 12)
  let rainRoll := s (p + 1)
  let rainIntensity : RainIntensity :=
    if rainRoll < rainChanceBase * (7/10) then .LOW
    else if rainRoll < rainChanceBase * (9/10) then .MEDIUM
    else if rainRoll < rainChanceBase * 1 then .HIGH
    else .NONE
  let roadCondition : RoadCondition :=
    if rainIntensity = .MEDIUM ∨ rainIntensity = .HIGH then
      (if rainIntensity = .HIGH ∧ 0 < temperature then .SLIPPERY_WET
       else if temperature ≤ -5 then .SLIPPERY_ICE
       else if temperature ≤ 0 then .SLIPPERY
       else .WET)
    else if temperature ≤ -8 then .SLIPPERY_ICE
    else .DRY
  let fogUsed : Bool × ℕ :=
    if isNight ∧ temperature < 6 then
      (if s (p + 2) < 8/100 then (true, 3)
       else (decide (s (p + 3) < 1/100), 4))
    else (decide (s (p + 2) < 1/100), 3)
  let fog := fogUsed.1
  let cwPos := fogUsed.2
  let crossWind := decide (s (p + cwPos) < 5/100)
  (⟨temperature, decide isNight, ⟨rainIntensity, roadCondition, fog, crossWind⟩⟩,
   g.skip (cwPos + 1))

/-! ## `generateInitialCells` (lines 81–222) -/

/-- One sample of the location loop (lines 149–183).  Draw 0 is the band
choice; draw 1 the city pick or highway index; the polyline sample takes
draw 2 in the highway bands; each `normal` takes two draws. -/
def sampleCellLocation (mp : MathParams) (g : Rng) (resolution : ℕ) : CellLoc :=
  let s := g.stream
  let p := g.pos
  let choice := s p
  let ll :=
    if choice < 1/2 then
      let city := pickCity (s (p + 1))
      (normalBM mp (s (p + 2)) (s (p + 3)) city.lat city.sigma,
       normalBM mp (s (p + 4)) (s (p + 5)) city.lng (city.sigma * 2))
    else if choice < 75/100 then
      let city := pickCity (s (p + 1))
      (normalBM mp (s (p + 2)) (s (p + 3)) city.lat (city.sigma * 5),
       normalBM mp (s (p + 4)) (s (p + 5)) city.lng (city.sigma * 2 * 5))
    else if choice < 80/100 then
      let poly := highways.getD (⌊s (p + 1) * (highways.length : ℚ)⌋).toNat []
      let base := (sampleAlongPolyline mp poly (g.skip 2)).1
      (normalBM mp (s (p + 3)) (s (p + 4)) base.lat (1/100),
       normalBM mp (s (p + 5)) (s (p + 6)) base.lng (1/100))
    else if choice < 92/100 then
      let poly := highways.getD (⌊s (p + 1) * (highways.length : ℚ)⌋).toNat []
      let base := (sampleAlongPolyline mp poly (g.skip 2)).1
      (normalBM mp (s (p + 3)) (s (p + 4)) base.lat (5/100),
       normalBM mp (s (p + 5)) (s (p + 6)) base.lng (5/100))
    else
      let city := pickCity (s (p + 1))
      (normalBM mp (s (p + 2)) (s (p + 3)) city.lat (city.sigma * 10),
       normalBM mp (s (p + 4)) (s (p + 5)) city.lng (city.sigma * 2 * 10))
  ⟨ll.1, ll.2, mp.latLngToCell ll.1 ll.2 resolution⟩

/-- The `#cellLocations` array: `rOf i` abstracts `#seededRand(i ^ seed)`,
a pure function of the seed and `i`. -/
def genCellLocations (mp : MathParams) (rOf : ℕ → ℕ → ℚ) (resolution count : ℕ) :
    List CellLoc :=
  (List.range count).map (fun i => sampleCellLocation mp ⟨rOf i, 0⟩ resolution)

/-- One iteration of the snapshot-seeding loop (lines 186–221): generate an
environment, build the baseline cell, store it in the snapshot and seed the
accumulator as if one event arrived at `now`. -/
def seedCell (mp : MathParams) (now : ℚ) (st : SimState) (loc : CellLoc) : SimState :=
  let envr := generateEnvironmentForLocation mp st.uni loc.lat now
  let env := envr.1
  let g := envr.2
  let confidence : ℤ := ⌊70 + g.stream g.pos * 30⌋
  let total_count : ℤ := max 1 ⌊1 + g.stream (g.pos + 1) * 200⌋
  let cell : Cell :=
    { location := ⟨loc.h3⟩
      timeframe := ⟨mp.isoString now⟩
      metadata := ⟨confidence, total_count⟩
      environment := env }
  let bucket : RawBucket :=
    { sumTemp := env.temperature
      count := 1
      lastTs := now
      sumConfidence := (confidence : ℚ)
      sumCounts := (total_count : ℚ)
      fogVotes := if env.conditions.fog then 1 else 0
      crossWindVotes := if env.conditions.cross_wind then 1 else 0
      rainScore := rainIntensityToScore env.conditions.rain_intensity
      roadScore := roadConditionToScore env.conditions.road_condition }
  { st with snapshot := mset st.snapshot loc.h3 cell
            rawAgg := mset st.rawAgg loc.h3 bucket
            uni := g.skip 2 }

/-- Model of `generateInitialCells(count)` on a fresh instance: sample the locations,
then seed snapshot and accumulator.  `uniStream` is the `#randUniform`
value sequence (a pure function of the seed), `now` the `Date.now()` value. -/
def generateInitialCells (mp : MathParams) (rOf : ℕ → ℕ → ℚ) (uniStream : ℕ → ℚ)
    (now : ℚ) (resolution count : ℕ) : SimState :=
  let locs := genCellLocations mp rOf resolution count
  let st0 : SimState :=
    { rawAgg := [], snapshot := [], hotspots := [], stats := []
      cellLocations := locs, uni := ⟨uniStream, 0⟩ }
  locs.foldl (seedCell mp now) st0

/-- Model of `generateInitialData()`: cells, then hotspots. -/
def generateInitialData (mp : MathParams) (rOfC rOfH : ℕ → ℕ → ℚ)
    (uuid : ℕ → String) (clock : ℕ → ℚ) (uniStream : ℕ → ℚ) (now : ℚ)
    (resolution countC countH : ℕ) : SimState :=
  let st := generateInitialCells mp rOfC uniStream now resolution countC
  { st with hotspots := generateInitialHotspots mp rOfH uuid clock countH }

/-! ## Query layer -/

/-- JS `x >= y` on possibly-NaN numbers (`none` = NaN: always false). -/
def jsGE (x y : Option ℚ) : Bool :=
  match x, y with
  | some a, some b => decide (b ≤ a)
  | _, _ => false

/-- JS `x <= y` on possibly-NaN numbers. -/
def jsLE (x y : Option ℚ) : Bool :=
  match x, y with
  | some a, some b => decide (a ≤ b)
  | _, _ => false

/-- The error message thrown for a malformed bounding box (lines 826–828). -/
def bboxErrorMsg : String :=
  "Invalid bounding box provided. Must be an array of [minLng, minLat, maxLng, maxLat]."

/-- Model of `getSnapshotInBbox(bbox)` (lines 824–840): guard `bbox.length !== 4`
before touching the store (a length-4 box, numeric or not, proceeds to the
scan); containment is inclusive on all four bounds. -/
def getSnapshotInBbox (mp : MathParams) (st : SimState) (bbox : List (Option ℚ)) :
    Except String (List (String × Cell)) :=
  match bbox with
  | [minLng, minLat, maxLng, maxLat] =>
      .ok (st.snapshot.filter (fun p =>
        let ll := mp.cellToLatLng p.1
        jsGE (some ll.1) minLat && jsLE (some ll.1) maxLat &&
          jsGE (some ll.2) minLng && jsLE (some ll.2) maxLng))
  | _ => .error bboxErrorMsg

/-- Model of `getHotspotsInBbox(bbox)` (lines 847–863): same guard and test against
the stored coordinates. -/
def getHotspotsInBbox (st : SimState) (bbox : List (Option ℚ)) :
    Except String (List (String × RiskHotspot)) :=
  match bbox with
  | [minLng, minLat, maxLng, maxLat] =>
      .ok (st.hotspots.filter (fun p =>
        jsGE (some p.2.location.latitude) minLat &&
          jsLE (some p.2.location.latitude) maxLat &&
          jsGE (some p.2.location.longitude) minLng &&
          jsLE (some p.2.location.longitude) maxLng))
  | _ => .error bboxErrorMsg

/-- Model of `#generateInitialStatisticsForCell` (lines 750–793); draws ten uniform
values in source order. -/
def generateInitialStatisticsForCell (mp : MathParams) (g : Rng) (cell : Cell)
    (now : ℚ) : CellStatistics × Rng :=
  let s := g.stream
  let p := g.pos
  let t := cell.environment.temperature
  let lowestVal := round1 (t - (5 + s p * 15))
  let highestVal := round1 (t + (10 + s (p + 1) * 15))
  let lowestTs := mp.isoString (now - ((⌊s (p + 2) * 365⌋ : ℤ) : ℚ) * (24 * 3600 * 1000))
  let highestTs := mp.isoString (now - ((⌊s (p + 3) * 200⌋ : ℤ) : ℚ) * (24 * 3600 * 1000))
  let baseDays : ℤ := max 1 (jsRound ((cell.metadata.total_count : ℚ) / 10))
  let rainLow := jsRound ((baseDays : ℚ) * min 1 (s (p + 4) * (6/10)))
  let rainMed := jsRound ((baseDays : ℚ) * min 1 (s (p + 5) * (3/10)))
  let rainHigh := jsRound ((baseDays : ℚ) * min 1 (s (p + 6) * (5/100)))
  let slippery := jsRound ((baseDays : ℚ) * (if t ≤ 0 then 4/10 else 5/100) * s (p + 7))
  let fogC := jsRound ((baseDays : ℚ) *
    (if cell.environment.conditions.fog then 6/10 else 5/100) * s (p + 8))
  let crossWindC := jsRound ((baseDays : ℚ) * (1/10) * s (p + 9))
  (⟨⟨some ⟨lowestVal, lowestTs⟩, some ⟨highestVal, highestTs⟩⟩,
    ⟨⟨rainLow, rainMed, rainHigh⟩, slippery, fogC, crossWindC⟩⟩, g.skip 10)

/-- Model of `getCell(h3Index, opts)` (lines 406–419): `undefined` when the id is not
in the snapshot (before any statistics work); otherwise a copy, computing
and caching statistics on first request. -/
def getCell (mp : MathParams) (st : SimState) (h3Index : String)
    (includeStatistics : Bool) (now : ℚ) :
    Option (Cell × Option CellStatistics) × SimState :=
  match mget st.snapshot h3Index with
  | none => (none, st)
  | some cell =>
      if includeStatistics then
        match mget st.stats h3Index with
        | some stats => (some (cell, some stats), st)
        | none =>
            let r := generateInitialStatisticsForCell mp st.uni cell now
            (some (cell, some r.1),
             { st with stats := mset st.stats h3Index r.1, uni := r.2 })
      else (some (cell, none), st)

/-- The external mutation surface the spec's flush-cycle invariants quantify
over: `pushRawEvent` (ingestion, also used by the background producer) and
the periodic snapshot flush. -/
inductive Step (mp : MathParams) : SimState → SimState → Prop
  | push (st : SimState) (h3Index : String) (e : RawEvent) (now : ℚ) :
      Step mp st (pushRawEvent st h3Index e now)
  | flush (st : SimState) (now : ℚ) :
      Step mp st (applyRawAggToSnapshotBatch mp st now)

/-! ## Helpers for stating query results -/

/-- Did the call succeed (no exception)? -/
def isOk {ε α : Type} : Except ε α → Bool
  | .ok _ => true
  | .error _ => false

/-- The payload of a successful bbox query (`[]` for an error). -/
def okD {ε α : Type} : Except ε (List α) → List α
  | .ok l => l
  | .error _ => []

/-- The store key of a generated hotspot, as built on line 355: the
5-decimal `lat_lng` rendering of its stored coordinates. -/
def hotspotKeyOf (h : RiskHotspot) : String :=
  toFixed5 h.location.latitude ++ "_" ++ toFixed5 h.location.longitude

/-- A `RiskHotspot` with the two nondeterministic components removed:
`metadata.id` (the unseeded `crypto.randomUUID()`) and `timeframe`
(derived from `Date.now()`). -/
structure RiskHotspotCore where
  location : HsLocation
  risk : HsRisk
  total_count : ℕ
  weather_impact : ℕ
  time_of_day_impact : ℕ
  vehicle : HsVehicle
  environment : HsEnvironment
  statistics : HotspotDist

/-- Erase exactly `metadata.id` and `timeframe` from a hotspot. -/
def stripNondet (h : RiskHotspot) : RiskHotspotCore :=
  ⟨h.location, h.metadata.risk, h.metadata.total_count, h.metadata.weather_impact,
   h.metadata.time_of_day_impact, h.vehicle, h.environment, h.statistics⟩

/-! ## Concrete fixtures used by witnesses and counterexamples -/

/-- A concrete, executable instantiation of the library parameters. -/
def demoMp : MathParams :=
  { sqrtQ := fun q => q
    headingQ := fun _ _ => 0
    gaussQ := fun _ _ => 0
    latLngToCell := fun _ _ _ => "demo-cell"
    cellToLatLng := fun _ => (49, 15)
    isoString := fun _ => "1970-01-01T00:00:00.000Z"
    dayOfYearQ := fun _ => 1
    utcHours := fun _ => 12
    sin2pi := fun _ => 0 }

/-- A concrete seeded stream (all draws 0, which lies in `[0,1)`). -/
def demoROf : ℕ → ℕ → ℚ := fun _ _ => 0

/-- The uniform stream of a demo run. -/
def demoStream : ℕ → ℚ := fun _ => 0

/-- The UUID sequence observed during a first run. -/
def demoUuidA : ℕ → String := fun _ => "uuid-a"

/-- The UUID sequence observed during a second run. -/
def demoUuidB : ℕ → String := fun _ => "uuid-b"

/-- The wall clock of a demo run. -/
def demoClock : ℕ → ℚ := fun _ => 0

/-- A concrete snapshot cell whose representative coordinate under
`demoMp` is `(49, 15)`. -/
def demoCell : Cell :=
  ⟨⟨"demo-cell"⟩, ⟨"1970-01-01T00:00:00.000Z"⟩, ⟨80, 1⟩,
   ⟨10, false, ⟨.NONE, .DRY, false, false⟩⟩⟩

/-- A concrete state with one snapshot cell and nothing else. -/
def demoState : SimState :=
  { rawAgg := [], snapshot := [("demo-cell", demoCell)], hotspots := [],
    stats := [], cellLocations := [], uni := ⟨demoStream, 0⟩ }

/-! ## C3: range invariants over all externally visible states -/

/-- Every snapshot cell has `confidence ∈ [0,100]` and `total_count ≥ 1`. -/
def SnapshotRangeOK (m : List (String × Cell)) : Prop :=
  ∀ p ∈ m, 0 ≤ p.2.metadata.confidence ∧ p.2.metadata.confidence ≤ 100 ∧
    1 ≤ p.2.metadata.total_count

/-- Every hotspot has `risk.confidence ∈ [0,100]` and `total_count ≥ 1`
(both are `ℕ` here, so the lower bound `0 ≤ confidence` holds by type). -/
def HotspotRangeOK (m : List (String × RiskHotspot)) : Prop :=
  ∀ p ∈ m, p.2.metadata.risk.confidence ≤ 100 ∧ 1 ≤ p.2.metadata.total_count

/-- The C3 invariant on a simulation state. -/
def RangeOK (st : SimState) : Prop :=
  SnapshotRangeOK st.snapshot ∧ HotspotRangeOK st.hotspots

/-! ## Theorems -/

theorem RngOK.next {g : Rng} (h : RngOK g) : RngOK g.next.2 := h

theorem RngOK.val {g : Rng} (h : RngOK g) : 0 ≤ g.next.1 ∧ g.next.1 < 1 :=
  h g.pos

/-! ### Conservation lemmas -/

theorem floor_toNat_lt {q : ℚ} (h0 : 0 ≤ q) (h1 : q < 1) (n : ℕ) (hn : 0 < n) :
    (⌊q * (n : ℚ)⌋).toNat < n := by
  have hq : q * (n : ℚ) < (n : ℚ) := by
    have hn0 : (0 : ℚ) < (n : ℚ) := by exact_mod_cast hn
    nlinarith
  have hfl : ⌊q * (n : ℚ)⌋ < (n : ℤ) := by
    apply Int.floor_lt.mpr
    exact_mod_cast hq
  have hnn : 0 ≤ ⌊q * (n : ℚ)⌋ := Int.floor_nonneg.mpr (by positivity)
  omega

theorem sum_map_bump {α : Type} [DecidableEq α] (l : List α) (f : α → ℕ) (k : α)
    (hk : k ∈ l) (hnd : l.Nodup) :
    (l.map (fun a => if a = k then f a + 1 else f a)).sum = (l.map f).sum + 1 := by
  induction l with
  | nil => cases hk
  | cons x xs ih =>
    rcases List.mem_cons.mp hk with h | h
    · subst h
      have hx : k ∉ xs := (List.nodup_cons.mp hnd).1
      simp only [List.map_cons, List.sum_cons, eq_self_iff_true, if_true]
      have hrest : xs.map (fun a => if a = k then f a + 1 else f a) = xs.map f := by
        apply List.map_congr_left
        intro a ha
        have hne : a ≠ k := fun e => hx (e ▸ ha)
        simp [hne]
      rw [hrest]; omega
    · have hnd2 := (List.nodup_cons.mp hnd).2
      have hxk : x ≠ k := fun e => (List.nodup_cons.mp hnd).1 (e ▸ h)
      simp only [List.map_cons, List.sum_cons, if_neg hxk]
      rw [ih h hnd2]; omega

theorem getD_mem {α : Type} (l : List α) (i : ℕ) (d : α) (h : i < l.length) :
    l.getD i d ∈ l := by
  rw [List.getD_eq_getElem l d h]
  exact List.getElem_mem h

theorem timeKeys_nodup : timeKeys.Nodup := by decide

theorem timeString_mem_left (h : ℕ) (hh : h < 24) : timeString h 0 ∈ timeKeys := by
  refine List.mem_map.mpr ⟨2 * h, List.mem_range.mpr (by omega), ?_⟩
  have h1 : 2 * h / 2 = h := by omega
  have h2 : 2 * h % 2 * 30 = 0 := by omega
  rw [h1, h2]

theorem timeString_mem_right (h : ℕ) (hh : h < 24) : timeString h 30 ∈ timeKeys := by
  refine List.mem_map.mpr ⟨2 * h + 1, List.mem_range.mpr (by omega), ?_⟩
  have h1 : (2 * h + 1) / 2 = h := by omega
  have h2 : (2 * h + 1) % 2 * 30 = 30 := by omega
  rw [h1, h2]

theorem dayKeys_nodup : dayKeys.Nodup := by decide

theorem sum_time_update (d : HotspotDist) (hour minute : ℕ) (hh : hour < 24)
    (hm : minute = 0 ∨ minute = 30) :
    (timeKeys.map
        (fun s => if s = timeString hour minute then d.by_time s + 1 else d.by_time s)).sum
      = sumTime d + 1 := by
  rcases hm with rfl | rfl
  · exact sum_map_bump _ _ _ (timeString_mem_left hour hh) timeKeys_nodup
  · exact sum_map_bump _ _ _ (timeString_mem_right hour hh) timeKeys_nodup

theorem stream_floor_lt (g : Rng) (hg : RngOK g) (p n : ℕ) (hn : 0 < n) :
    (⌊g.stream p * (n : ℚ)⌋).toNat < n :=
  floor_toNat_lt (hg p).1 (hg p).2 n hn

theorem statsStep_stream (ti : ℕ) (g : Rng) (d : HotspotDist) :
    (statsStep ti g d).2.stream = g.stream := rfl

theorem statsStep_sumWeek (ti : ℕ) (g : Rng) (d : HotspotDist) (hg : RngOK g) :
    sumWeek (statsStep ti g d).1 = sumWeek d + 1 := by
  have h52 := stream_floor_lt g hg g.pos 52 (by norm_num)
  push_cast at h52
  simp only [statsStep, sumWeek]
  exact sum_map_bump _ _ _ (List.mem_range.mpr (by omega)) (List.nodup_range 53)

theorem statsStep_sumDay (ti : ℕ) (g : Rng) (d : HotspotDist) (hg : RngOK g) :
    sumDay (statsStep ti g d).1 = sumDay d + 1 := by
  have h5 := stream_floor_lt g hg (g.pos + 2) 5 (by norm_num)
  have h2 := stream_floor_lt g hg (g.pos + 2) 2 (by norm_num)
  push_cast at h5 h2
  simp only [statsStep, sumDay]
  refine sum_map_bump _ _ _ (getD_mem _ _ _ ?_) dayKeys_nodup
  have hlen : dayKeys.length = 7 := rfl
  rw [hlen]
  split <;> omega

theorem statsStep_sumTime (ti : ℕ) (g : Rng) (d : HotspotDist) (hg : RngOK g) :
    sumTime (statsStep ti g d).1 = sumTime d + 1 := by
  have ha2 := stream_floor_lt g hg (g.pos + 5) 2 (by norm_num)
  have ha3 := stream_floor_lt g hg (g.pos + 5) 3 (by norm_num)
  have ha6 := stream_floor_lt g hg (g.pos + 4) 6 (by norm_num)
  have ha24 := stream_floor_lt g hg (g.pos + 4) 24 (by norm_num)
  push_cast at ha2 ha3 ha6 ha24
  simp only [statsStep, sumTime]
  apply sum_time_update
  · split
    · split <;> omega
    · split
      · split <;> omega
      · omega
  · split <;> split
    all_goals first | (left; rfl) | (right; rfl)

theorem statsLoop_spec (ti : ℕ) :
    ∀ (n : ℕ) (g : Rng) (d : HotspotDist), RngOK g →
      sumWeek (statsLoop ti n g d) = sumWeek d + n ∧
      sumDay (statsLoop ti n g d) = sumDay d + n ∧
      sumTime (statsLoop ti n g d) = sumTime d + n := by
  intro n
  induction n with
  | zero => intro g d _; simp [statsLoop]
  | succ m ih =>
    intro g d hg
    have hw := statsStep_sumWeek ti g d hg
    have hd := statsStep_sumDay ti g d hg
    have ht := statsStep_sumTime ti g d hg
    have hg2 : RngOK (statsStep ti g d).2 := by
      intro k
      rw [statsStep_stream]
      exact hg k
    obtain ⟨hw2, hd2, ht2⟩ := ih (statsStep ti g d).2 (statsStep ti g d).1 hg2
    refine ⟨?_, ?_, ?_⟩ <;> simp only [statsLoop] <;> omega

theorem generateHotspotStatistics_sums (g : Rng) (tc ti : ℕ) (hg : RngOK g) :
    sumWeek (generateHotspotStatistics g tc ti) = tc ∧
    sumDay (generateHotspotStatistics g tc ti) = tc ∧
    sumTime (generateHotspotStatistics g tc ti) = tc := by
  obtain ⟨hw, hd, ht⟩ := statsLoop_spec ti tc g distZero hg
  have hzw : sumWeek distZero = 0 := by simp [sumWeek, distZero]
  have hzd : sumDay distZero = 0 := by simp [sumDay, distZero, dayKeys]
  have hzt : sumTime distZero = 0 := by simp [sumTime, distZero]
  unfold generateHotspotStatistics
  omega

theorem RngOK.skip {g : Rng} (h : RngOK g) (k : ℕ) : RngOK (g.skip k) := h

theorem buildStore_append {α : Type} (l : List (String × α)) (x : String × α) :
    buildStore (l ++ [x]) = mset (buildStore l) x.1 x.2 := by
  simp [buildStore, List.foldl_append]

theorem lastBinding_append {α : Type} (l : List (String × α)) (x : String × α)
    (k : String) :
    lastBinding (l ++ [x]) k = if x.1 = k then some x.2 else lastBinding l k := by
  simp [lastBinding, List.foldl_append]

theorem find?_map_replace_ne {α : Type} (m : List (String × α)) (key k : String)
    (v : α) (h : key ≠ k) :
    (m.map (fun p => if p.1 = key then (key, v) else p)).find? (fun p => p.1 = k)
      = m.find? (fun p => p.1 = k) := by
  induction m with
  | nil => rfl
  | cons q rest ih =>
    rw [List.map_cons]
    by_cases hq : q.1 = key
    · rw [if_pos hq]
      rw [List.find?_cons_of_neg _ (by simp [h]),
        List.find?_cons_of_neg _ (by simp [hq, h]), ih]
    · rw [if_neg hq]
      by_cases hqk : q.1 = k
      · rw [List.find?_cons_of_pos _ (by simp [hqk]),
          List.find?_cons_of_pos _ (by simp [hqk])]
      · rw [List.find?_cons_of_neg _ (by simp [hqk]),
          List.find?_cons_of_neg _ (by simp [hqk]), ih]

theorem find?_map_replace_eq {α : Type} (m : List (String × α)) (key : String)
    (v : α) (h : m.any (fun p => p.1 = key)) :
    (m.map (fun p => if p.1 = key then (key, v) else p)).find? (fun p => p.1 = key)
      = some (key, v) := by
  induction m with
  | nil => simp at h
  | cons q rest ih =>
    rw [List.map_cons]
    by_cases hq : q.1 = key
    · rw [if_pos hq]
      exact List.find?_cons_of_pos _ (by simp)
    · rw [if_neg hq]
      rw [List.find?_cons_of_neg _ (by simp [hq])]
      apply ih
      rw [List.any_cons] at h
      rcases Bool.or_eq_true_iff.mp h with h2 | h2
      · exact absurd (of_decide_eq_true h2) hq
      · exact h2

theorem mget_mset {α : Type} (m : List (String × α)) (key : String) (v : α)
    (k : String) :
    mget (mset m key v) k = if key = k then some v else mget m k := by
  unfold mset
  by_cases hany : m.any (fun p => p.1 = key)
  · rw [if_pos hany]
    by_cases hk : key = k
    · subst hk
      rw [if_pos rfl]
      unfold mget
      rw [find?_map_replace_eq m key v hany]
      rfl
    · rw [if_neg hk]
      unfold mget
      rw [find?_map_replace_ne m key k v hk]
  · rw [if_neg (by simpa using hany)]
    have hnone : m.find? (fun p => p.1 = key) = none := by
      rw [List.find?_eq_none]
      intro p hp
      have := List.any_eq_false.mp (Bool.eq_false_iff.mpr hany) p hp
      simpa using this
    unfold mget
    rw [List.find?_append]
    by_cases hk : key = k
    · subst hk
      rw [if_pos rfl, hnone]
      rw [List.find?_cons_of_pos _ (by simp)]
      rfl
    · rw [if_neg hk]
      have happ : List.find? (fun p => decide (p.1 = k)) [(key, v)] = none := by
        rw [List.find?_cons_of_neg _ (by simp [hk])]
        rfl
      rw [happ, Option.or_none]

theorem mem_mset {α : Type} (m : List (String × α)) (key : String) (v : α)
    (q : String × α) (hq : q ∈ mset m key v) : q ∈ m ∨ q = (key, v) := by
  unfold mset at hq
  split at hq
  · obtain ⟨p, hp, hpe⟩ := List.mem_map.mp hq
    by_cases h : p.1 = key
    · right
      rw [if_pos h] at hpe
      exact hpe.symm
    · left
      rw [if_neg h] at hpe
      exact hpe ▸ hp
  · rcases List.mem_append.mp hq with h | h
    · exact Or.inl h
    · exact Or.inr (List.mem_singleton.mp h)

theorem mem_buildStore {α : Type} (l : List (String × α)) (q : String × α)
    (h : q ∈ buildStore l) : q ∈ l := by
  induction l using List.reverseRecOn with
  | nil => cases h
  | append_singleton l x ih =>
    rw [buildStore_append] at h
    rcases mem_mset _ _ _ _ h with h2 | h2
    · exact List.mem_append_left _ (ih h2)
    · exact List.mem_append_right _ (List.mem_singleton.mpr h2)

theorem mget_buildStore {α : Type} (l : List (String × α)) (k : String) :
    mget (buildStore l) k = lastBinding l k := by
  induction l using List.reverseRecOn with
  | nil => rfl
  | append_singleton l x ih =>
    rw [buildStore_append, mget_mset, lastBinding_append, ih]

/-! ## Claim theorems -/

/-- Claim C5: the flush classification maps the mean rain score by the
thresholds `≥3.0 → HIGH`, `≥1.2 → MEDIUM`, `≥0.6 → LOW`, else `NONE`, and the
mean road score by `≥2.5 → SLIPPERY_ICE`, `≥1.8 → SLIPPERY`, `≥0.8 → WET`,
else `DRY`; in particular 3.5 → HIGH, 1.0 → LOW, 2.6 → SLIPPERY_ICE and
0.9 → WET. -/
theorem C5_classification_thresholds :
    (∀ s : ℚ,
      (3 ≤ s → classifyRain s = .HIGH) ∧
      (12/10 ≤ s ∧ s < 3 → classifyRain s = .MEDIUM) ∧
      (6/10 ≤ s ∧ s < 12/10 → classifyRain s = .LOW) ∧
      (s < 6/10 → classifyRain s = .NONE)) ∧
    (∀ s : ℚ,
      (5/2 ≤ s → classifyRoad s = .SLIPPERY_ICE) ∧
      (9/5 ≤ s ∧ s < 5/2 → classifyRoad s = .SLIPPERY) ∧
      (4/5 ≤ s ∧ s < 9/5 → classifyRoad s = .WET) ∧
      (s < 4/5 → classifyRoad s = .DRY)) ∧
    classifyRain (35/10) = .HIGH ∧ classifyRain 1 = .LOW ∧
    classifyRoad (26/10) = .SLIPPERY_ICE ∧ classifyRoad (9/10) = .WET := by
  refine ⟨fun s => ⟨fun h => ?_, fun h => ?_, fun h => ?_, fun h => ?_⟩,
    fun s => ⟨fun h => ?_, fun h => ?_, fun h => ?_, fun h => ?_⟩, ?_, ?_, ?_, ?_⟩
  · unfold classifyRain
    rw [if_pos (by linarith)]
  · unfold classifyRain
    rw [if_neg (by push_neg; linarith [h.2]), if_pos (by linarith [h.1])]
  · unfold classifyRain
    rw [if_neg (by push_neg; linarith [h.2]), if_neg (by push_neg; linarith [h.2]),
      if_pos (by linarith [h.1])]
  · unfold classifyRain
    rw [if_neg (by push_neg; linarith), if_neg (by push_neg; linarith),
      if_neg (by push_neg; linarith)]
  · unfold classifyRoad
    rw [if_pos (by linarith)]
  · unfold classifyRoad
    rw [if_neg (by push_neg; linarith [h.2]), if_pos (by linarith [h.1])]
  · unfold classifyRoad
    rw [if_neg (by push_neg; linarith [h.2]), if_neg (by push_neg; linarith [h.2]),
      if_pos (by linarith [h.1])]
  · unfold classifyRoad
    rw [if_neg (by push_neg; linarith), if_neg (by push_neg; linarith),
      if_neg (by push_neg; linarith)]
  · norm_num [classifyRain]
  · norm_num [classifyRain]
  · norm_num [classifyRoad]
  · norm_num [classifyRoad]

/-- Witness for C5 at concrete scores. -/
theorem C5_classification_thresholds_witness :
    classifyRain 4 = RainIntensity.HIGH ∧ classifyRoad 2 = RoadCondition.SLIPPERY :=
  ⟨(C5_classification_thresholds.1 4).1 (by norm_num),
   ((C5_classification_thresholds.2.1 2).2.1 ⟨by norm_num, by norm_num⟩)⟩

/-- The three distribution sums of a generated hotspot all equal its
`metadata.total_count`. -/
theorem mkHotspot_conservation (mp : MathParams) (g : Rng) (u : String) (t : ℚ)
    (hg : RngOK g) :
    sumWeek (mkHotspot mp g u t).2.statistics
        = (mkHotspot mp g u t).2.metadata.total_count ∧
    sumDay (mkHotspot mp g u t).2.statistics
        = (mkHotspot mp g u t).2.metadata.total_count ∧
    sumTime (mkHotspot mp g u t).2.statistics
        = (mkHotspot mp g u t).2.metadata.total_count := by
  obtain ⟨h1, h2, h3⟩ := generateHotspotStatistics_sums (g.skip 26)
    (5 + (⌊g.stream (g.pos + 4) * g.stream (g.pos + 4) * g.stream (g.pos + 4) * 500⌋).toNat)
    (1 + (⌊g.stream (g.pos + 8) * 5⌋).toNat) (RngOK.skip hg 26)
  exact ⟨h1, h2, h3⟩

/-- Claim C1: for every generated hotspot, the sums of `by_day`, `by_week`
and `by_time` each equal the hotspot's `metadata.total_count`. -/
theorem C1_hotspot_temporal_conservation (mp : MathParams) (rOf : ℕ → ℕ → ℚ)
    (uuid : ℕ → String) (clock : ℕ → ℚ) (count : ℕ)
    (hr : ∀ i, StreamOK (rOf i)) :
    ∀ p ∈ generateInitialHotspots mp rOf uuid clock count,
      sumDay p.2.statistics = p.2.metadata.total_count ∧
      sumWeek p.2.statistics = p.2.metadata.total_count ∧
      sumTime p.2.statistics = p.2.metadata.total_count := by
  intro p hp
  unfold generateInitialHotspots at hp
  have hp2 := mem_buildStore _ _ hp
  unfold genHotspotPairs at hp2
  obtain ⟨i, hi, rfl⟩ := List.mem_map.mp hp2
  obtain ⟨h1, h2, h3⟩ :=
    mkHotspot_conservation mp ⟨rOf i, 0⟩ (uuid i) (clock i) (hr i)
  exact ⟨h2, h1, h3⟩

/-- Witness for C1: the single hotspot of a one-hotspot demo run. -/
theorem C1_hotspot_temporal_conservation_witness :
    sumDay (mkHotspot demoMp ⟨demoROf 0, 0⟩ (demoUuidA 0) (demoClock 0)).2.statistics
      = (mkHotspot demoMp ⟨demoROf 0, 0⟩ (demoUuidA 0) (demoClock 0)).2.metadata.total_count := by
  have hmem : mkHotspot demoMp ⟨demoROf 0, 0⟩ (demoUuidA 0) (demoClock 0)
      ∈ generateInitialHotspots demoMp demoROf demoUuidA demoClock 1 := by
    have he : generateInitialHotspots demoMp demoROf demoUuidA demoClock 1
        = [mkHotspot demoMp ⟨demoROf 0, 0⟩ (demoUuidA 0) (demoClock 0)] := rfl
    rw [he]
    exact List.mem_singleton.mpr rfl
  exact (C1_hotspot_temporal_conservation demoMp demoROf demoUuidA demoClock 1
    (fun i n => ⟨by norm_num [demoROf], by norm_num [demoROf]⟩) _ hmem).1

/-- Claim C9: every generated hotspot is stored under the 5-decimal
`"lat_lng"` rendering of its own coordinates, and the store holds the
*last* generated record for each id — an id collision silently overwrites
(the generator is total, so generation never fails). -/
theorem C9_hotspot_id_derivation_and_overwrite (mp : MathParams)
    (rOf : ℕ → ℕ → ℚ) (uuid : ℕ → String) (clock : ℕ → ℚ) (count : ℕ) :
    (∀ p ∈ genHotspotPairs mp rOf uuid clock count, p.1 = hotspotKeyOf p.2) ∧
    (∀ k, mget (generateInitialHotspots mp rOf uuid clock count) k
        = lastBinding (genHotspotPairs mp rOf uuid clock count) k) := by
  constructor
  · intro p hp
    unfold genHotspotPairs at hp
    obtain ⟨i, hi, rfl⟩ := List.mem_map.mp hp
    rfl
  · intro k
    unfold generateInitialHotspots
    exact mget_buildStore _ k

/-- Witness for C9: the key of the demo hotspot is its coordinate string. -/
theorem C9_hotspot_id_derivation_and_overwrite_witness :
    (mkHotspot demoMp ⟨demoROf 0, 0⟩ (demoUuidA 0) (demoClock 0)).1
      = hotspotKeyOf (mkHotspot demoMp ⟨demoROf 0, 0⟩ (demoUuidA 0) (demoClock 0)).2 := by
  have hmem : mkHotspot demoMp ⟨demoROf 0, 0⟩ (demoUuidA 0) (demoClock 0)
      ∈ genHotspotPairs demoMp demoROf demoUuidA demoClock 1 := by
    have he : genHotspotPairs demoMp demoROf demoUuidA demoClock 1
        = [mkHotspot demoMp ⟨demoROf 0, 0⟩ (demoUuidA 0) (demoClock 0)] := rfl
    rw [he]
    exact List.mem_singleton.mpr rfl
  exact (C9_hotspot_id_derivation_and_overwrite demoMp demoROf demoUuidA demoClock 1).1
    _ hmem

/-- The function `seedCell` never touches `#cellLocations`. -/
theorem foldl_seedCell_cellLocations (mp : MathParams) (now : ℚ) :
    ∀ (locs : List CellLoc) (st : SimState),
      (locs.foldl (seedCell mp now) st).cellLocations = st.cellLocations := by
  intro locs
  induction locs with
  | nil => intro st; rfl
  | cons a l ih =>
    intro st
    rw [List.foldl_cons, ih]
    rfl

/-- The stripped core of a generated hotspot does not depend on the UUID or
the clock. -/
theorem mkHotspot_core_independent (mp : MathParams) (g : Rng) (u1 u2 : String)
    (t1 t2 : ℚ) :
    ((mkHotspot mp g u1 t1).1, stripNondet (mkHotspot mp g u1 t1).2)
      = ((mkHotspot mp g u2 t2).1, stripNondet (mkHotspot mp g u2 t2).2) := rfl

/-- Claim C2, amended: with the same seed (hence the same seeded streams) and
counts, `generateInitialCells` produces the same `#cellLocations` in every
run (whatever the wall clock and the state of the instance-global uniform
generator), and `generateInitialHotspots` produces the same ids and the same
records *except* for `metadata.id` (unseeded `crypto.randomUUID()`) and
`timeframe.first` / `timeframe.last` (derived from `Date.now()`). -/
theorem C2_amended_determinism (mp : MathParams) (rOfC rOfH : ℕ → ℕ → ℚ)
    (uuid1 uuid2 : ℕ → String) (clock1 clock2 : ℕ → ℚ) (uni1 uni2 : ℕ → ℚ)
    (now1 now2 : ℚ) (resolution countC countH : ℕ) :
    (generateInitialCells mp rOfC uni1 now1 resolution countC).cellLocations
      = (generateInitialCells mp rOfC uni2 now2 resolution countC).cellLocations ∧
    (genHotspotPairs mp rOfH uuid1 clock1 countH).map
        (fun p => (p.1, stripNondet p.2))
      = (genHotspotPairs mp rOfH uuid2 clock2 countH).map
        (fun p => (p.1, stripNondet p.2)) := by
  constructor
  · unfold generateInitialCells
    rw [foldl_seedCell_cellLocations, foldl_seedCell_cellLocations]
  · unfold genHotspotPairs
    rw [List.map_map, List.map_map]
    apply List.map_congr_left
    intro i _
    exact mkHotspot_core_independent mp ⟨rOfH i, 0⟩ (uuid1 i) (uuid2 i)
      (clock1 i) (clock2 i)

/-- Claim C2, counterexample: the claim as stated is false — two runs with
identical seed stream, counts and even an identical clock, differing only in
the unseeded `crypto.randomUUID()` source, produce hotspot records whose
`metadata.id` fields differ, so the hotspot sets are not byte-identical. -/
theorem C2_counterexample :
    ((genHotspotPairs demoMp demoROf demoUuidA demoClock 1).map
        (fun p => p.2.metadata.id) = ["uuid-a"]) ∧
    ((genHotspotPairs demoMp demoROf demoUuidB demoClock 1).map
        (fun p => p.2.metadata.id) = ["uuid-b"]) ∧
    genHotspotPairs demoMp demoROf demoUuidA demoClock 1
      ≠ genHotspotPairs demoMp demoROf demoUuidB demoClock 1 := by
  refine ⟨rfl, rfl, fun h => ?_⟩
  have h2 := congrArg (List.map (fun p => (Prod.snd p).metadata.id)) h
  have ha : (genHotspotPairs demoMp demoROf demoUuidA demoClock 1).map
      (fun p => (Prod.snd p).metadata.id) = ["uuid-a"] := rfl
  have hb : (genHotspotPairs demoMp demoROf demoUuidB demoClock 1).map
      (fun p => (Prod.snd p).metadata.id) = ["uuid-b"] := rfl
  rw [ha, hb] at h2
  simp at h2

/-- Lookup `mget` succeeds exactly on stored keys. -/
theorem mget_isSome_any {α : Type} (l : List (String × α)) (k : String) :
    (mget l k).isSome = l.any (fun q => q.1 = k) := by
  unfold mget
  induction l with
  | nil => rfl
  | cons q rest ih =>
    by_cases h : q.1 = k
    · rw [List.find?_cons_of_pos _ (by simp [h])]
      simp [h]
    · rw [List.find?_cons_of_neg _ (by simp [h])]
      simp only [List.any_cons, decide_eq_true_eq]
      rw [ih]
      simp [h]

/-- Lookup `lastBinding` succeeds exactly on keys of the sequence. -/
theorem lastBinding_isSome_any {α : Type} (l : List (String × α)) (k : String) :
    (lastBinding l k).isSome = l.any (fun q => q.1 = k) := by
  induction l using List.reverseRecOn with
  | nil => rfl
  | append_singleton l x ih =>
    rw [lastBinding_append]
    by_cases h : x.1 = k
    · simp [h]
    · simp [h, ih]

/-- A key-preserving transformation of the entries preserves `any` over keys. -/
theorem any_map_fst {α β : Type} (l : List (String × α)) (f : String × α → String × β)
    (hf : ∀ q, (f q).1 = q.1) (k : String) :
    (l.map f).any (fun q => q.1 = k) = l.any (fun q => q.1 = k) := by
  induction l with
  | nil => rfl
  | cons q rest ih => simp only [List.map_cons, List.any_cons, ih, hf]

/-- Claim C6: after a flush the key set of the new snapshot is exactly the key
set of the accumulator at flush time (cells without events since the last
flush are absent — no carry-forward), and the accumulator is empty. -/
theorem C6_flush_key_set_and_clear (mp : MathParams) (st : SimState) (now : ℚ) :
    (∀ k, (mget (applyRawAggToSnapshotBatch mp st now).snapshot k).isSome
        = (mget st.rawAgg k).isSome) ∧
    (applyRawAggToSnapshotBatch mp st now).rawAgg = [] := by
  constructor
  · intro k
    show (mget (buildStore (st.rawAgg.map (summarize mp st now))) k).isSome = _
    rw [mget_buildStore, lastBinding_isSome_any, mget_isSome_any,
      any_map_fst st.rawAgg (summarize mp st now) (fun q => rfl) k]
  · rfl

/-- Claim C7, counterexample: the claim as stated is false — a length-4
bounding box whose entries are all non-numeric (NaN) is *not* rejected by
`getSnapshotInBbox` / `getHotspotsInBbox`: the guard only checks arity, so
the scan runs (over a non-empty store) and returns an ok result. -/
theorem C7_counterexample :
    getSnapshotInBbox demoMp demoState [none, none, none, none] = .ok [] ∧
    getHotspotsInBbox demoState [none, none, none, none] = .ok [] ∧
    demoState.snapshot ≠ [] := by
  refine ⟨rfl, rfl, by simp [demoState]⟩

/-- Claim C7, amended: a bounding box of wrong arity makes both queries fail
with the invalid-bbox error before any scan — the result is this error for
*every* store contents, so neither store is read; non-numeric entries in a
length-4 box are not rejected (they are filtered out upstream by the
transport layer's validation). -/
theorem C7_amended_arity_guard (mp : MathParams) (st : SimState)
    (bbox : List (Option ℚ)) (h : bbox.length ≠ 4) :
    getSnapshotInBbox mp st bbox = .error bboxErrorMsg ∧
    getHotspotsInBbox st bbox = .error bboxErrorMsg := by
  rcases bbox with _ | ⟨a, _ | ⟨b, _ | ⟨c, _ | ⟨d, _ | ⟨e, rest⟩⟩⟩⟩⟩
  · exact ⟨rfl, rfl⟩
  · exact ⟨rfl, rfl⟩
  · exact ⟨rfl, rfl⟩
  · exact ⟨rfl, rfl⟩
  · exact absurd rfl h
  · exact ⟨rfl, rfl⟩

/-- Witness for the amended C7 at a concrete one-element bbox. -/
theorem C7_amended_arity_guard_witness :
    getSnapshotInBbox demoMp demoState [some 1] = .error bboxErrorMsg :=
  (C7_amended_arity_guard demoMp demoState [some 1] (by simp)).1

/-- Claim C8: bounding-box containment is inclusive on all four bounds: a
well-formed (all-numeric) bbox query succeeds, and any stored cell whose
representative coordinate satisfies the four inclusive inequalities —
including `lat = maxLat` — appears in the result. -/
theorem C8_bbox_inclusive_bounds (mp : MathParams) (st : SimState)
    (minLng minLat maxLng maxLat : ℚ) (k : String) (cell : Cell)
    (hmem : (k, cell) ∈ st.snapshot)
    (hlat1 : minLat ≤ (mp.cellToLatLng k).1) (hlat2 : (mp.cellToLatLng k).1 ≤ maxLat)
    (hlng1 : minLng ≤ (mp.cellToLatLng k).2) (hlng2 : (mp.cellToLatLng k).2 ≤ maxLng) :
    isOk (getSnapshotInBbox mp st [some minLng, some minLat, some maxLng, some maxLat])
      = true ∧
    (k, cell) ∈ okD (getSnapshotInBbox mp st
      [some minLng, some minLat, some maxLng, some maxLat]) := by
  refine ⟨rfl, ?_⟩
  show (k, cell) ∈ st.snapshot.filter _
  apply List.mem_filter.mpr
  refine ⟨hmem, ?_⟩
  simp [jsGE, jsLE, hlat1, hlat2, hlng1, hlng2]

/-- Witness for C8 with `lat = maxLat` exactly on the boundary. -/
theorem C8_bbox_inclusive_bounds_witness :
    isOk (getSnapshotInBbox demoMp demoState [some 10, some 40, some 20, some 49])
      = true ∧
    ("demo-cell", demoCell) ∈ okD (getSnapshotInBbox demoMp demoState
      [some 10, some 40, some 20, some 49]) :=
  C8_bbox_inclusive_bounds demoMp demoState 10 40 20 49 "demo-cell" demoCell
    (by simp [demoState]) (by norm_num [demoMp]) (by norm_num [demoMp])
    (by norm_num [demoMp]) (by norm_num [demoMp])

/-- Claim C10: `getCell` on an id absent from the snapshot returns `undefined`
whatever the `includeStatistics` option, and the whole state — including the
statistics cache and the uniform generator — is unchanged. -/
theorem C10_getCell_missing_id (mp : MathParams) (st : SimState) (h3Index : String)
    (includeStatistics : Bool) (now : ℚ)
    (h : mget st.snapshot h3Index = none) :
    getCell mp st h3Index includeStatistics now = (none, st) := by
  unfold getCell
  rw [h]

/-- Witness for C10 at a concrete missing id. -/
theorem C10_getCell_missing_id_witness :
    getCell demoMp demoState "missing-cell" true 0 = (none, demoState) :=
  C10_getCell_missing_id demoMp demoState "missing-cell" true 0 rfl

/-- A key-preserving transformation commutes with `lastBinding`. -/
theorem lastBinding_map_keyfix {α β : Type} (f : String × α → String × β)
    (hf : ∀ q, (f q).1 = q.1) (l : List (String × α)) (k : String) :
    lastBinding (l.map f) k = (lastBinding l k).map (fun v => (f (k, v)).2) := by
  induction l using List.reverseRecOn with
  | nil => rfl
  | append_singleton l x ih =>
    rw [List.map_append, List.map_cons, List.map_nil, lastBinding_append,
      lastBinding_append, hf x]
    by_cases h : x.1 = k
    · rw [if_pos h, if_pos h]
      subst h
      rfl
    · rw [if_neg h, if_neg h, ih]

theorem lastBinding_map_replace {α : Type} (m : List (String × α)) (k : String)
    (v : α) :
    lastBinding (m.map (fun p => if p.1 = k then (k, v) else p)) k
      = if m.any (fun p => p.1 = k) then some v else none := by
  induction m using List.reverseRecOn with
  | nil => rfl
  | append_singleton l x ih =>
    rw [List.map_append, List.map_cons, List.map_nil, lastBinding_append]
    by_cases h : x.1 = k
    · simp [h, List.any_append]
    · have hc : ((l ++ [x]).any fun p => decide (p.1 = k))
          = (l.any fun p => decide (p.1 = k)) := by
        rw [List.any_append]
        simp [h]
      simp only [if_neg h]
      rw [ih]
      exact if_congr (by rw [hc]) rfl rfl

/-- After `Map.set(k, v)` the binding for `k` is `v`. -/
theorem lastBinding_mset_self {α : Type} (m : List (String × α)) (k : String)
    (v : α) :
    lastBinding (mset m k v) k = some v := by
  unfold mset
  by_cases h : m.any (fun p => p.1 = k) = true
  · rw [if_pos h, lastBinding_map_replace, if_pos h]
  · rw [if_neg h, lastBinding_append]
    simp

/-- Claim C4: pushing `{temperature: 10.0}` for a cell with no accumulator
entry and flushing before any other event for that cell yields the summary
`{confidence: 80, total_count: 1, temperature: 10.0, rain_intensity: NONE,
road_condition: DRY}` — ingestion applied all the documented defaults for
the absent optional fields and never rejected the event (the embedded
`pushRawEvent` is a total function). -/
theorem C4_push_default_event_then_flush (mp : MathParams) (st : SimState)
    (cellX : String) (now1 now2 : ℚ)
    (hfresh : mget st.rawAgg cellX = none) :
    (mget (applyRawAggToSnapshotBatch mp
        (pushRawEvent st cellX (bareEvent 10) now1) now2).snapshot cellX).map
      (fun c => c.metadata.confidence) = some 80 ∧
    (mget (applyRawAggToSnapshotBatch mp
        (pushRawEvent st cellX (bareEvent 10) now1) now2).snapshot cellX).map
      (fun c => c.metadata.total_count) = some 1 ∧
    (mget (applyRawAggToSnapshotBatch mp
        (pushRawEvent st cellX (bareEvent 10) now1) now2).snapshot cellX).map
      (fun c => c.environment.temperature) = some 10 ∧
    (mget (applyRawAggToSnapshotBatch mp
        (pushRawEvent st cellX (bareEvent 10) now1) now2).snapshot cellX).map
      (fun c => c.environment.conditions.rain_intensity) = some .NONE ∧
    (mget (applyRawAggToSnapshotBatch mp
        (pushRawEvent st cellX (bareEvent 10) now1) now2).snapshot cellX).map
      (fun c => c.environment.conditions.road_condition) = some .DRY := by
  have hrawAgg : (pushRawEvent st cellX (bareEvent 10) now1).rawAgg
      = mset st.rawAgg cellX ⟨10, 1, max 0 now1, 80, 1, 0, 0, 0, 0⟩ := by
    unfold pushRawEvent bareEvent
    rw [hfresh]
    norm_num [rainIntensityToScore, roadConditionToScore]
  have hkey : mget (applyRawAggToSnapshotBatch mp
      (pushRawEvent st cellX (bareEvent 10) now1) now2).snapshot cellX
      = (lastBinding (pushRawEvent st cellX (bareEvent 10) now1).rawAgg cellX).map
          (fun v => (summarize mp (pushRawEvent st cellX (bareEvent 10) now1) now2
            (cellX, v)).2) := by
    show (mget (buildStore _) cellX) = _
    rw [mget_buildStore,
      lastBinding_map_keyfix (summarize mp (pushRawEvent st cellX (bareEvent 10) now1)
        now2) (fun q => rfl)]
  have hsome : mget (applyRawAggToSnapshotBatch mp
      (pushRawEvent st cellX (bareEvent 10) now1) now2).snapshot cellX
      = some (summarize mp (pushRawEvent st cellX (bareEvent 10) now1) now2
          (cellX, ⟨10, 1, max 0 now1, 80, 1, 0, 0, 0, 0⟩)).2 := by
    rw [hkey, hrawAgg, lastBinding_mset_self]
    rfl
  rw [hsome]
  refine ⟨?_, ?_, ?_, ?_, ?_⟩
  · show some (max 0 (min 100 (jsRound ((80 : ℚ) / max 1 ((1 : ℕ) : ℚ))))) = some 80
    norm_num [jsRound]
  · show some (max 1 (jsRound (1 : ℚ))) = some 1
    norm_num [jsRound]
  · show some (round1 ((10 : ℚ) / max 1 ((1 : ℕ) : ℚ))) = some 10
    norm_num [round1, jsRound]
  · show some (classifyRain ((0 : ℚ) / max 1 ((1 : ℕ) : ℚ))) = some RainIntensity.NONE
    norm_num [classifyRain]
  · show some (classifyRoad ((0 : ℚ) / max 1 ((1 : ℕ) : ℚ))) = some RoadCondition.DRY
    norm_num [classifyRoad]

/-- Witness for C4: a concrete push-then-flush on the demo state. -/
theorem C4_push_default_event_then_flush_witness :
    (mget (applyRawAggToSnapshotBatch demoMp
        (pushRawEvent demoState "cellX" (bareEvent 10) 5) 6).snapshot "cellX").map
      (fun c => c.metadata.confidence) = some 80 ∧
    (mget (applyRawAggToSnapshotBatch demoMp
        (pushRawEvent demoState "cellX" (bareEvent 10) 5) 6).snapshot "cellX").map
      (fun c => c.metadata.total_count) = some 1 ∧
    (mget (applyRawAggToSnapshotBatch demoMp
        (pushRawEvent demoState "cellX" (bareEvent 10) 5) 6).snapshot "cellX").map
      (fun c => c.environment.temperature) = some 10 ∧
    (mget (applyRawAggToSnapshotBatch demoMp
        (pushRawEvent demoState "cellX" (bareEvent 10) 5) 6).snapshot "cellX").map
      (fun c => c.environment.conditions.rain_intensity) = some .NONE ∧
    (mget (applyRawAggToSnapshotBatch demoMp
        (pushRawEvent demoState "cellX" (bareEvent 10) 5) 6).snapshot "cellX").map
      (fun c => c.environment.conditions.road_condition) = some .DRY :=
  C4_push_default_event_then_flush demoMp demoState "cellX" 5 6 rfl

/-- A flushed summary is always in range, by the clamps on lines 479–484. -/
theorem summarize_range (mp : MathParams) (st : SimState) (now : ℚ)
    (q : String × RawBucket) :
    0 ≤ (summarize mp st now q).2.metadata.confidence ∧
    (summarize mp st now q).2.metadata.confidence ≤ 100 ∧
    1 ≤ (summarize mp st now q).2.metadata.total_count :=
  ⟨le_max_left 0 _, max_le (by norm_num) (min_le_left 100 _), le_max_left 1 _⟩

/-- Ingestion never touches the snapshot or the hotspot store. -/
theorem rangeOK_push (st : SimState) (h3Index : String) (e : RawEvent) (now : ℚ)
    (h : RangeOK st) : RangeOK (pushRawEvent st h3Index e now) := h

/-- A flush rebuilds the snapshot from clamped summaries only. -/
theorem rangeOK_flush (mp : MathParams) (st : SimState) (now : ℚ)
    (h : RangeOK st) : RangeOK (applyRawAggToSnapshotBatch mp st now) := by
  constructor
  · intro p hp
    have hp2 : p ∈ buildStore (st.rawAgg.map (summarize mp st now)) := hp
    obtain ⟨q, hq, rfl⟩ := List.mem_map.mp (mem_buildStore _ _ hp2)
    exact summarize_range mp st now q
  · exact h.2

theorem floor_70_30 (u : ℚ) (h0 : 0 ≤ u) (h1 : u < 1) :
    0 ≤ (⌊70 + u * 30⌋ : ℤ) ∧ (⌊70 + u * 30⌋ : ℤ) ≤ 100 := by
  constructor
  · apply Int.le_floor.mpr
    push_cast
    nlinarith
  · have h2 := Int.floor_lt.mpr (show (70 : ℚ) + u * 30 < ((101 : ℤ) : ℚ) by
      push_cast; nlinarith)
    omega

/-- The environment generator preserves the uniform stream. -/
theorem genEnv_stream (mp : MathParams) (g : Rng) (lat now : ℚ) :
    (generateEnvironmentForLocation mp g lat now).2.stream = g.stream := rfl

theorem seedCell_uni_stream (mp : MathParams) (now : ℚ) (st : SimState)
    (loc : CellLoc) : (seedCell mp now st loc).uni.stream = st.uni.stream := rfl

/-- A seeded baseline cell is in range: `confidence = ⌊70 + u·30⌋ ∈ [70,99]`
and `total_count = max(1, ·)`. -/
theorem seedCell_snapshot_ok (mp : MathParams) (now : ℚ) (st : SimState)
    (loc : CellLoc) (hu : StreamOK st.uni.stream)
    (hs : SnapshotRangeOK st.snapshot) :
    SnapshotRangeOK (seedCell mp now st loc).snapshot := by
  intro p hp
  rcases mem_mset _ _ _ _ hp with hold | hnew
  · exact hs p hold
  · have hu2 : StreamOK (generateEnvironmentForLocation mp st.uni loc.lat now).2.stream := by
      rw [genEnv_stream]
      exact hu
    have hb := floor_70_30
      ((generateEnvironmentForLocation mp st.uni loc.lat now).2.stream
        ((generateEnvironmentForLocation mp st.uni loc.lat now).2.pos))
      (hu2 _).1 (hu2 _).2
    subst hnew
    exact ⟨hb.1, hb.2, le_max_left 1 _⟩

theorem foldl_seedCell_ok (mp : MathParams) (now : ℚ) :
    ∀ (locs : List CellLoc) (st : SimState),
      StreamOK st.uni.stream → SnapshotRangeOK st.snapshot →
      SnapshotRangeOK (locs.foldl (seedCell mp now) st).snapshot := by
  intro locs
  induction locs with
  | nil => intro st _ hs; exact hs
  | cons a l ih =>
    intro st hu hs
    rw [List.foldl_cons]
    apply ih
    · rw [seedCell_uni_stream]
      exact hu
    · exact seedCell_snapshot_ok mp now st a hu hs

theorem foldl_seedCell_hotspots (mp : MathParams) (now : ℚ) :
    ∀ (locs : List CellLoc) (st : SimState),
      (locs.foldl (seedCell mp now) st).hotspots = st.hotspots := by
  intro locs
  induction locs with
  | nil => intro st; rfl
  | cons a l ih =>
    intro st
    rw [List.foldl_cons, ih]
    rfl

/-- Every generated hotspot has `risk.confidence = 50 + ⌊r·50⌋ ≤ 99` and
`total_count = 5 + ⌊r³·500⌋ ≥ 5`. -/
theorem generateInitialHotspots_range (mp : MathParams) (rOf : ℕ → ℕ → ℚ)
    (uuid : ℕ → String) (clock : ℕ → ℚ) (count : ℕ)
    (hr : ∀ i, StreamOK (rOf i)) :
    HotspotRangeOK (generateInitialHotspots mp rOf uuid clock count) := by
  intro p hp
  unfold generateInitialHotspots at hp
  have hp2 := mem_buildStore _ _ hp
  unfold genHotspotPairs at hp2
  obtain ⟨i, hi, rfl⟩ := List.mem_map.mp hp2
  constructor
  · have h50 := floor_toNat_lt ((hr i) 18).1 ((hr i) 18).2 50 (by norm_num)
    push_cast at h50
    show 50 + (⌊rOf i 18 * (50 : ℚ)⌋).toNat ≤ 100
    omega
  · show 1 ≤ 5 + (⌊rOf i 4 * rOf i 4 * rOf i 4 * 500⌋).toNat
    omega

/-- The state right after `generateInitialData` satisfies the C3 ranges. -/
theorem rangeOK_initial (mp : MathParams) (rOfC rOfH : ℕ → ℕ → ℚ)
    (uuid : ℕ → String) (clock : ℕ → ℚ) (uniStream : ℕ → ℚ) (now : ℚ)
    (resolution countC countH : ℕ)
    (huni : StreamOK uniStream) (hr : ∀ i, StreamOK (rOfH i)) :
    RangeOK (generateInitialData mp rOfC rOfH uuid clock uniStream now
      resolution countC countH) := by
  constructor
  · show SnapshotRangeOK
      (generateInitialCells mp rOfC uniStream now resolution countC).snapshot
    unfold generateInitialCells
    apply foldl_seedCell_ok
    · exact huni
    · intro p hp
      cases hp
  · show HotspotRangeOK (generateInitialHotspots mp rOfH uuid clock countH)
    exact generateInitialHotspots_range mp rOfH uuid clock countH hr

/-- Claim C3: in every externally visible state — right after initial
generation and after any sequence of ingests (`pushRawEvent`) and flushes —
every snapshot cell and every hotspot has confidence in `[0,100]` and
`total_count ≥ 1`. -/
theorem C3_confidence_and_count_ranges (mp : MathParams) (rOfC rOfH : ℕ → ℕ → ℚ)
    (uuid : ℕ → String) (clock : ℕ → ℚ) (uniStream : ℕ → ℚ) (now : ℚ)
    (resolution countC countH : ℕ) (st : SimState)
    (huni : StreamOK uniStream) (hr : ∀ i, StreamOK (rOfH i))
    (hreach : Relation.ReflTransGen (Step mp)
      (generateInitialData mp rOfC rOfH uuid clock uniStream now
        resolution countC countH) st) :
    RangeOK st := by
  induction hreach with
  | refl =>
    exact rangeOK_initial mp rOfC rOfH uuid clock uniStream now
      resolution countC countH huni hr
  | tail hsteps hstep ih =>
    cases hstep with
    | push h3Index e now2 => exact rangeOK_push _ h3Index e now2 ih
    | flush now2 => exact rangeOK_flush mp _ now2 ih

/-- Witness for C3: the initial state of a concrete one-cell, one-hotspot
run is reachable (in zero steps) and in range. -/
theorem C3_confidence_and_count_ranges_witness :
    RangeOK (generateInitialData demoMp demoROf demoROf demoUuidA demoClock
      demoStream 0 9 1 1) :=
  C3_confidence_and_count_ranges demoMp demoROf demoROf demoUuidA demoClock
    demoStream 0 9 1 1 _
    (fun n => ⟨by norm_num [demoStream], by norm_num [demoStream]⟩)
    (fun i n => ⟨by norm_num [demoROf], by norm_num [demoROf]⟩)
    Relation.ReflTransGen.refl

end Cardata

